import Mathlib

/-!
Verification of the OpenPin2 media-relay scripts.

The central artifact is a shallow embedding of the concurrent live relay in
src/live.py (class PebbleLiveSession) as an executable labeled transition
system. The five asyncio tasks spawned by run_live_session
(get_frames, listen_audio, send_realtime, receive_audio, play_audio) are
cooperative coroutines: control transfers between them only at await points,
so every code segment between two awaits is one atomic step of the system.
The events of the transition system below are exactly those segments.

Key modelling notes, each keyed to the source:

* receive_audio (live.py 307-324): chunks arriving in a turn are pushed with
  put_nowait (event recvChunk); when the async-for over the turn ends, the
  drain loop "while not empty: get_nowait" runs. That loop contains no
  await, so under cooperative scheduling it executes without interleaving:
  it is the single atomic event turnComplete, which empties the inbound
  queue and advances the turn counter.
* play_audio (live.py 326-337): "await queue.get()" then
  "await to_thread(stream.write, ...)" are two distinct suspension points,
  so dequeuing a chunk (playTake) and writing it to the device (playWrite)
  are separate events with possible interleavings between them.
* send_realtime (live.py 296-305): "await queue.get()" (sendTake) then
  "await session.send_realtime_input(input=msg)" which either returns
  (sendOk) or raises, in which case the error is printed and the loop
  continues (sendErr).
* get_frames (live.py 263-276): frame capture plus a blocking put on the
  bounded outbound queue (captureFrame, enabled only when the queue is not
  full, which models asyncio.Queue(maxsize=10).put blocking). On any
  Exception the task prints the error and breaks, then stops the camera
  (captureErr). On task cancellation, CancelledError is raised at an await;
  "except Exception" does NOT catch it (CancelledError derives from
  BaseException since Python 3.8), so the post-loop camera stop is skipped
  (captureCancelAwait). If instead the task observes is_session_running
  false at the loop head, it exits normally and stops the camera
  (captureExitFlag).
* listen_audio / receive_audio / play_audio / send_realtime exit either by
  observing the cleared running flag or by catching CancelledError and
  breaking; both paths are the events listenExit / recvExit / sendExit /
  playExit, enabled when the flag is cleared or a cancellation is being
  delivered (group cancellation reaches the catch clauses even while the
  flag is still set). play_audio closes its output stream after its loop.
* listen_audio additionally exits when the microphone read raises IOError
  (live.py 292-293): the except clause breaks even while the running flag
  is still set, and only prints the stop message after the loop
  (listenIOErr).
* play_audio catches only CancelledError, so an exception raised by
  stream.write (live.py 331-336) escapes the task: the playback task dies
  without closing its output stream and the exception aborts the
  asyncio.TaskGroup, delivering cancellation to every sibling task
  (playWriteErr sets cancelRequested).
* run_live_session (live.py 339-371): the finally block stops and closes
  the microphone stream and clears is_session_running once the task group
  is finished (groupFinally).
* _toggle_session stop branch (live.py 405-411): clears is_session_running
  and cancels the session future (event cancel).
-/

namespace OpenPin

/-- An inbound audio chunk: (sequence id, index of the turn during which
receive_audio enqueued it). Ids are allocated from a fresh counter. -/
abbrev Chunk := Nat × Nat

/-- Status of one asyncio task of the relay. -/
inductive TaskStatus
  | active
  | done
deriving DecidableEq, Repr

/-- State of the live relay of src/live.py: the two queues, the in-flight
items held by the sender and playback loops between their two awaits, the
device flags, the five task statuses, and instrumentation (histories of
enqueued, forwarded, delivered and played items, and an error-log count). -/
structure RelayState where
  /-- is_session_running -/
  running : Bool
  /-- the session future has been cancelled (CancelledError is being
  delivered to the tasks at their awaits) -/
  cancelRequested : Bool
  /-- the finally block of run_live_session has executed -/
  finallyDone : Bool
  /-- the _audio_in_queue field -/
  inQ : List Chunk
  /-- the _out_queue field (item ids) -/
  outQ : List Nat
  /-- chunk dequeued by play_audio, not yet written to the device -/
  playHand : Option Chunk
  /-- chunks written to the output device, each paired with the value of
  the turn counter at the moment of the write -/
  played : List (Chunk × Nat)
  /-- item dequeued by send_realtime, not yet passed to the session -/
  sendHand : Option Nat
  /-- items passed to session.send_realtime_input, in call order -/
  forwarded : List Nat
  /-- items whose send_realtime_input call returned without raising -/
  delivered : List Nat
  /-- history of all items put on the outbound queue, in order -/
  enqOut : List Nat
  /-- fresh-id counter for inbound chunks -/
  nextChunk : Nat
  /-- fresh-id counter for outbound items -/
  nextItem : Nat
  /-- number of completed turns -/
  curTurn : Nat
  captureStatus : TaskStatus
  listenStatus : TaskStatus
  sendStatus : TaskStatus
  recvStatus : TaskStatus
  playStatus : TaskStatus
  /-- picam2.started -/
  camStarted : Bool
  /-- the microphone input stream is open -/
  micOpen : Bool
  /-- the speaker output stream is open -/
  outOpen : Bool
  /-- number of error messages printed -/
  errLog : Nat
deriving DecidableEq, Repr

/-- maxsize of _out_queue in run_live_session (live.py 348). -/
def outCapacity : Nat := 10

/-- The atomic events of the relay (one per await-delimited code segment,
see the module comment). -/
inductive Ev
  | recvChunk
  | turnComplete
  | playTake
  | playWrite
  | micChunk
  | captureFrame
  | captureErr
  | sendTake
  | sendOk
  | sendErr
  | cancel
  | captureExitFlag
  | captureCancelAwait
  | listenExit
  | listenIOErr
  | sendExit
  | recvExit
  | playExit
  | playWriteErr
  | groupFinally
deriving DecidableEq, Repr

/-- Every event, for terminal-state checks. -/
def allEvents : List Ev :=
  [Ev.recvChunk, Ev.turnComplete, Ev.playTake, Ev.playWrite, Ev.micChunk,
   Ev.captureFrame, Ev.captureErr, Ev.sendTake, Ev.sendOk, Ev.sendErr,
   Ev.cancel, Ev.captureExitFlag, Ev.captureCancelAwait, Ev.listenExit,
   Ev.listenIOErr, Ev.sendExit, Ev.recvExit, Ev.playExit, Ev.playWriteErr,
   Ev.groupFinally]

/-- One step of the relay: none when the event is not enabled in the given
state (a blocked or impossible step). -/
def step (e : Ev) (s : RelayState) : Option RelayState :=
  match e with
  | .recvChunk =>
    if s.recvStatus = .active then
      some { s with inQ := s.inQ ++ [(s.nextChunk, s.curTurn)],
                    nextChunk := s.nextChunk + 1 }
    else none
  | .turnComplete =>
    if s.recvStatus = .active then
      some { s with inQ := [], curTurn := s.curTurn + 1 }
    else none
  | .playTake =>
    match s.inQ with
    | [] => none
    | c :: rest =>
      if s.playStatus = .active ∧ s.running = true ∧ s.playHand = none then
        some { s with inQ := rest, playHand := some c }
      else none
  | .playWrite =>
    match s.playHand with
    | none => none
    | some c =>
      if s.playStatus = .active then
        some { s with playHand := none, played := s.played ++ [(c, s.curTurn)] }
      else none
  | .micChunk =>
    if s.listenStatus = .active ∧ s.running = true ∧
       s.outQ.length < outCapacity then
      some { s with outQ := s.outQ ++ [s.nextItem],
                    enqOut := s.enqOut ++ [s.nextItem],
                    nextItem := s.nextItem + 1 }
    else none
  | .captureFrame =>
    if s.captureStatus = .active ∧ s.running = true ∧ s.camStarted = true ∧
       s.outQ.length < outCapacity then
      some { s with outQ := s.outQ ++ [s.nextItem],
                    enqOut := s.enqOut ++ [s.nextItem],
                    nextItem := s.nextItem + 1 }
    else none
  | .captureErr =>
    if s.captureStatus = .active then
      some { s with captureStatus := .done, camStarted := false,
                    errLog := s.errLog + 1 }
    else none
  | .sendTake =>
    match s.outQ with
    | [] => none
    | i :: rest =>
      if s.sendStatus = .active ∧ s.running = true ∧ s.sendHand = none then
        some { s with outQ := rest, sendHand := some i }
      else none
  | .sendOk =>
    match s.sendHand with
    | none => none
    | some i =>
      if s.sendStatus = .active then
        some { s with sendHand := none, forwarded := s.forwarded ++ [i],
                      delivered := s.delivered ++ [i] }
      else none
  | .sendErr =>
    match s.sendHand with
    | none => none
    | some i =>
      if s.sendStatus = .active then
        some { s with sendHand := none, forwarded := s.forwarded ++ [i],
                      errLog := s.errLog + 1 }
      else none
  | .cancel =>
    if s.running = true then
      some { s with running := false, cancelRequested := true }
    else none
  | .captureExitFlag =>
    if s.captureStatus = .active ∧ s.running = false then
      some { s with captureStatus := .done, camStarted := false }
    else none
  | .captureCancelAwait =>
    if s.captureStatus = .active ∧ s.cancelRequested = true then
      some { s with captureStatus := .done }
    else none
  | .listenExit =>
    if s.listenStatus = .active ∧
       (s.running = false ∨ s.cancelRequested = true) then
      some { s with listenStatus := .done }
    else none
  | .listenIOErr =>
    if s.listenStatus = .active then
      some { s with listenStatus := .done }
    else none
  | .sendExit =>
    if s.sendStatus = .active ∧
       (s.running = false ∨ s.cancelRequested = true) then
      some { s with sendStatus := .done }
    else none
  | .recvExit =>
    if s.recvStatus = .active ∧
       (s.running = false ∨ s.cancelRequested = true) then
      some { s with recvStatus := .done }
    else none
  | .playExit =>
    if s.playStatus = .active ∧
       (s.running = false ∨ s.cancelRequested = true) then
      some { s with playStatus := .done, outOpen := false }
    else none
  | .playWriteErr =>
    match s.playHand with
    | none => none
    | some _ =>
      if s.playStatus = .active then
        some { s with playHand := none, playStatus := .done,
                      cancelRequested := true }
      else none
  | .groupFinally =>
    if s.captureStatus = .done ∧ s.listenStatus = .done ∧
       s.sendStatus = .done ∧ s.recvStatus = .done ∧ s.playStatus = .done ∧
       s.finallyDone = false then
      some { s with micOpen := false, running := false, finallyDone := true }
    else none

/-- Execute a sequence of events; none if any step is disabled. -/
def run : List Ev → RelayState → Option RelayState
  | [], s => some s
  | e :: es, s => (step e s).bind (run es)

/-- The relay state right after run_live_session has created both queues
and spawned the five tasks: everything active, queues empty, devices open. -/
def initRelay : RelayState :=
  { running := true, cancelRequested := false, finallyDone := false,
    inQ := [], outQ := [], playHand := none, played := [],
    sendHand := none, forwarded := [], delivered := [], enqOut := [],
    nextChunk := 0, nextItem := 0, curTurn := 0,
    captureStatus := .active, listenStatus := .active, sendStatus := .active,
    recvStatus := .active, playStatus := .active,
    camStarted := true, micOpen := true, outOpen := true, errLog := 0 }

/-- Invariant-preservation transfer from single steps to runs, restricted
to an allowed set of events. -/
theorem run_preserve_on (A : Ev → Prop) (P : RelayState → Prop)
    (h : ∀ e s s2, A e → P s → step e s = some s2 → P s2) :
    ∀ es s s2, (∀ e ∈ es, A e) → P s → run es s = some s2 → P s2 := by
  intro es
  induction es with
  | nil =>
    intro s s2 _ hP hrun
    simp [run] at hrun
    exact hrun ▸ hP
  | cons e es ih =>
    intro s s2 hA hP hrun
    simp only [run, Option.bind] at hrun
    cases hstep : step e s with
    | none => rw [hstep] at hrun; simp at hrun
    | some s1 =>
      rw [hstep] at hrun
      exact ih s1 s2 (fun x hx => hA x (List.mem_cons_of_mem e hx))
        (h e s s1 (hA e (List.mem_cons_self e es)) hP hstep) hrun

/-- Steps other than recvChunk keep an empty inbound queue empty: only
receive_audio ever puts chunks on _audio_in_queue, and play_audio can only
remove them (its dequeue blocks on an empty queue). -/
theorem inQ_empty_step (e : Ev) (s s2 : RelayState)
    (he : e ≠ Ev.recvChunk) (h0 : s.inQ = [])
    (hstep : step e s = some s2) : s2.inQ = [] := by
  cases e <;>
    first
      | exact absurd rfl he
      | (simp only [step] at hstep
         repeat' split at hstep
         all_goals simp_all
         all_goals (cases hstep; simp [h0]))

/-- C1: for every state of the inbound audio queue, when receive_audio
observes a turn-complete signal the drain loop (live.py 319-320) leaves the
inbound queue empty, and the queue stays empty along any continuation in
which no chunk of the next turn has yet been enqueued. -/
theorem relay_turn_complete_drains_inbound
    (s s1 s2 : RelayState) (es : List Ev)
    (hdrain : step Ev.turnComplete s = some s1)
    (hrun : run es s1 = some s2)
    (hnochunk : Ev.recvChunk ∉ es) :
    s1.inQ = [] ∧ s2.inQ = [] := by
  have h1 : s1.inQ = [] := by
    simp only [step] at hdrain
    split at hdrain
    · cases hdrain
      rfl
    · simp at hdrain
  refine ⟨h1, ?_⟩
  exact run_preserve_on (fun e => e ≠ Ev.recvChunk) (fun t => t.inQ = [])
    (fun e t t2 hA hP hs => inQ_empty_step e t t2 hA hP hs)
    es s1 s2 (fun e he heq => hnochunk (heq ▸ he)) h1 hrun

/-- A state of the relay in which two chunks of the current turn are
waiting in the inbound queue. -/
def c1Start : RelayState :=
  { initRelay with inQ := [(0, 0), (1, 0)], nextChunk := 2 }

/-- The state right after the turn-complete drain from c1Start. -/
def c1Drained : RelayState :=
  { c1Start with inQ := [], curTurn := 1 }

/-- Witness for C1 at a concrete seeded queue of two chunks. -/
theorem relay_turn_complete_drains_inbound_witness :
    step Ev.turnComplete c1Start = some c1Drained ∧
    run [Ev.micChunk] c1Drained
      = some ((run [Ev.micChunk] c1Drained).getD initRelay) ∧
    Ev.recvChunk ∉ [Ev.micChunk] ∧
    (c1Drained.inQ = [] ∧
      ((run [Ev.micChunk] c1Drained).getD initRelay).inQ = []) :=
  ⟨by decide, by decide, by decide,
   relay_turn_complete_drains_inbound c1Start c1Drained _ [Ev.micChunk]
     (by decide) (by decide) (by decide)⟩

/-- The chunks that have been written to the audio output device. -/
def playedChunks (s : RelayState) : List Chunk := s.played.map Prod.fst

/-- A chunk that has left the pipeline for good: its id was allocated, it
is no longer queued, not held by the playback loop, and was never written
to the device. -/
def ChunkGone (c : Chunk) (s : RelayState) : Prop :=
  c.1 < s.nextChunk ∧ c ∉ s.inQ ∧ s.playHand ≠ some c ∧ c ∉ playedChunks s

/-- A chunk that is gone stays gone under every step of the relay: fresh
ids prevent re-enqueueing, and play_audio can only obtain chunks from the
inbound queue. -/
theorem chunkGone_step (c : Chunk) (e : Ev) (s s2 : RelayState)
    (hG : ChunkGone c s) (hstep : step e s = some s2) : ChunkGone c s2 := by
  obtain ⟨h1, h2, h3, h4⟩ := hG
  cases e with
  | recvChunk =>
    simp only [step] at hstep
    split at hstep
    · cases hstep
      refine ⟨Nat.lt_succ_of_lt h1, ?_, h3, h4⟩
      intro hc
      rcases List.mem_append.mp hc with hm | hm
      · exact h2 hm
      · rw [List.mem_singleton] at hm
        rw [hm] at h1
        simp at h1
    · exact Option.noConfusion hstep
  | turnComplete =>
    simp only [step] at hstep
    split at hstep
    · cases hstep
      exact ⟨h1, by simp, h3, h4⟩
    · exact Option.noConfusion hstep
  | playTake =>
    simp only [step] at hstep
    split at hstep
    next => exact Option.noConfusion hstep
    next d rest heq =>
      split at hstep
      · cases hstep
        rw [heq] at h2
        simp only [List.mem_cons, not_or] at h2
        exact ⟨h1, h2.2, fun h => h2.1 (Option.some.inj h).symm, h4⟩
      · exact Option.noConfusion hstep
  | playWrite =>
    simp only [step] at hstep
    split at hstep
    next => exact Option.noConfusion hstep
    next d heq =>
      split at hstep
      · cases hstep
        have hdc : c ≠ d := fun h => h3 (by rw [heq, h])
        refine ⟨h1, h2, by simp, ?_⟩
        simp only [playedChunks, List.map_append, List.map_cons, List.map_nil,
          List.mem_append, List.mem_singleton, not_or]
        exact ⟨h4, hdc⟩
      · exact Option.noConfusion hstep
  | micChunk =>
    simp only [step] at hstep
    repeat' split at hstep
    all_goals first
      | exact Option.noConfusion hstep
      | (cases hstep; exact ⟨h1, h2, h3, h4⟩)
  | captureFrame =>
    simp only [step] at hstep
    repeat' split at hstep
    all_goals first
      | exact Option.noConfusion hstep
      | (cases hstep; exact ⟨h1, h2, h3, h4⟩)
  | captureErr =>
    simp only [step] at hstep
    repeat' split at hstep
    all_goals first
      | exact Option.noConfusion hstep
      | (cases hstep; exact ⟨h1, h2, h3, h4⟩)
  | sendTake =>
    simp only [step] at hstep
    repeat' split at hstep
    all_goals first
      | exact Option.noConfusion hstep
      | (cases hstep; exact ⟨h1, h2, h3, h4⟩)
  | sendOk =>
    simp only [step] at hstep
    repeat' split at hstep
    all_goals first
      | exact Option.noConfusion hstep
      | (cases hstep; exact ⟨h1, h2, h3, h4⟩)
  | sendErr =>
    simp only [step] at hstep
    repeat' split at hstep
    all_goals first
      | exact Option.noConfusion hstep
      | (cases hstep; exact ⟨h1, h2, h3, h4⟩)
  | cancel =>
    simp only [step] at hstep
    repeat' split at hstep
    all_goals first
      | exact Option.noConfusion hstep
      | (cases hstep; exact ⟨h1, h2, h3, h4⟩)
  | captureExitFlag =>
    simp only [step] at hstep
    repeat' split at hstep
    all_goals first
      | exact Option.noConfusion hstep
      | (cases hstep; exact ⟨h1, h2, h3, h4⟩)
  | captureCancelAwait =>
    simp only [step] at hstep
    repeat' split at hstep
    all_goals first
      | exact Option.noConfusion hstep
      | (cases hstep; exact ⟨h1, h2, h3, h4⟩)
  | listenExit =>
    simp only [step] at hstep
    repeat' split at hstep
    all_goals first
      | exact Option.noConfusion hstep
      | (cases hstep; exact ⟨h1, h2, h3, h4⟩)
  | listenIOErr =>
    simp only [step] at hstep
    repeat' split at hstep
    all_goals first
      | exact Option.noConfusion hstep
      | (cases hstep; exact ⟨h1, h2, h3, h4⟩)
  | playWriteErr =>
    simp only [step] at hstep
    repeat' split at hstep
    all_goals first
      | exact Option.noConfusion hstep
      | (cases hstep; exact ⟨h1, h2, by simp, h4⟩)
  | sendExit =>
    simp only [step] at hstep
    repeat' split at hstep
    all_goals first
      | exact Option.noConfusion hstep
      | (cases hstep; exact ⟨h1, h2, h3, h4⟩)
  | recvExit =>
    simp only [step] at hstep
    repeat' split at hstep
    all_goals first
      | exact Option.noConfusion hstep
      | (cases hstep; exact ⟨h1, h2, h3, h4⟩)
  | playExit =>
    simp only [step] at hstep
    repeat' split at hstep
    all_goals first
      | exact Option.noConfusion hstep
      | (cases hstep; exact ⟨h1, h2, h3, h4⟩)
  | groupFinally =>
    simp only [step] at hstep
    repeat' split at hstep
    all_goals first
      | exact Option.noConfusion hstep
      | (cases hstep; exact ⟨h1, h2, h3, h4⟩)

/-- C2 counterexample: a chunk of a completed (superseded) turn CAN still
be written to the audio device. Chunk (0, 0) of turn 0 is dequeued by
play_audio, then turn 0 completes and the drain runs, then play_audio
writes the chunk it already holds: the played log records the chunk of
turn 0 written while the turn counter is already 1. -/
theorem relay_stale_chunk_played_counterexample :
    (run [Ev.recvChunk, Ev.playTake, Ev.turnComplete, Ev.playWrite]
        initRelay).map (fun s => (s.played, s.curTurn))
      = some ([((0, 0), 1)], 1) := by decide

/-- C2 amended: a chunk that is still IN the inbound queue when its turn
completes is never played afterwards (the drain discards it for good);
only the single chunk already dequeued by play_audio can still be written
after the turn-complete signal. -/
theorem relay_drained_chunk_never_played
    (c : Chunk) (s s1 s2 : RelayState) (es : List Ev)
    (hin : c ∈ s.inQ) (hid : c.1 < s.nextChunk)
    (hhand : s.playHand ≠ some c) (hpl : c ∉ playedChunks s)
    (hdrain : step Ev.turnComplete s = some s1)
    (hrun : run es s1 = some s2) :
    c ∉ playedChunks s2 ∧ c ∉ s2.inQ ∧ s2.playHand ≠ some c := by
  have hG1 : ChunkGone c s1 := by
    simp only [step] at hdrain
    split at hdrain
    · cases hdrain
      exact ⟨hid, by simp, hhand, hpl⟩
    · exact Option.noConfusion hdrain
  have hG2 : ChunkGone c s2 :=
    run_preserve_on (fun _ => True) (ChunkGone c)
      (fun e t t2 _ hP hs => chunkGone_step c e t t2 hP hs)
      es s1 s2 (fun _ _ => trivial) hG1 hrun
  exact ⟨hG2.2.2.2, hG2.2.1, hG2.2.2.1⟩

/-- A state with one chunk of the current turn still queued. -/
def c2Start : RelayState := { initRelay with inQ := [(0, 0)], nextChunk := 1 }

/-- The state right after the turn-complete drain from c2Start. -/
def c2Drained : RelayState := { c2Start with inQ := [], curTurn := 1 }

/-- Trace continuing after the drain: the next turn produces a chunk which
is played normally. -/
def c2Tail : List Ev := [Ev.recvChunk, Ev.playTake, Ev.playWrite]

/-- Witness for the amended C2: chunk (0, 0), drained at the end of turn 0,
is absent from the device output even after the next turn plays. -/
theorem relay_drained_chunk_never_played_witness :
    (0, 0) ∈ c2Start.inQ ∧ (0, 0).1 < c2Start.nextChunk ∧
    c2Start.playHand ≠ some (0, 0) ∧ (0, 0) ∉ playedChunks c2Start ∧
    step Ev.turnComplete c2Start = some c2Drained ∧
    run c2Tail c2Drained = some ((run c2Tail c2Drained).getD initRelay) ∧
    ((0, 0) ∉ playedChunks ((run c2Tail c2Drained).getD initRelay) ∧
      (0, 0) ∉ ((run c2Tail c2Drained).getD initRelay).inQ ∧
      ((run c2Tail c2Drained).getD initRelay).playHand ≠ some (0, 0)) :=
  ⟨by decide, by decide, by decide, by decide, by decide, by decide,
   relay_drained_chunk_never_played (0, 0) c2Start c2Drained _ c2Tail
     (by decide) (by decide) (by decide) (by decide) (by decide) (by decide)⟩

/-- Accounting invariant for the outbound queue: the history of enqueued
items is exactly the items already passed to the session, then the item in
the sender hand, then the queue contents. No item is dropped or reordered. -/
def OutboundAccounted (s : RelayState) : Prop :=
  s.enqOut = s.forwarded ++ s.sendHand.toList ++ s.outQ

/-- Each step preserves the outbound accounting invariant. -/
theorem outboundAccounted_step (e : Ev) (s s2 : RelayState)
    (hI : OutboundAccounted s) (hstep : step e s = some s2) :
    OutboundAccounted s2 := by
  unfold OutboundAccounted at hI ⊢
  cases e <;>
    (simp only [step] at hstep
     repeat' split at hstep
     all_goals first
       | exact Option.noConfusion hstep
       | (cases hstep; simp_all))

/-- The outbound queue never holds more than outCapacity items; enqueue
steps are guarded by the capacity check (the blocking put). -/
def QueueBounded (s : RelayState) : Prop := s.outQ.length ≤ outCapacity

/-- Each step preserves the queue bound. -/
theorem queueBounded_step (e : Ev) (s s2 : RelayState)
    (hI : QueueBounded s) (hstep : step e s = some s2) :
    QueueBounded s2 := by
  unfold QueueBounded at hI ⊢
  cases e <;>
    (simp only [step] at hstep
     repeat' split at hstep
     all_goals first
       | exact Option.noConfusion hstep
       | (cases hstep
          first
            | assumption
            | (simp_all; try omega)))

/-- C3: the single sender loop passes outbound items to the remote session
in exactly the order in which they were enqueued: in every reachable state
the forwarded sequence is a prefix of the enqueue history. -/
theorem relay_outbound_fifo (es : List Ev) (s : RelayState)
    (hrun : run es initRelay = some s) :
    s.forwarded <+: s.enqOut := by
  have hI : OutboundAccounted s :=
    run_preserve_on (fun _ => True) OutboundAccounted
      (fun e t t2 _ hP hs => outboundAccounted_step e t t2 hP hs)
      es initRelay s (fun _ _ => trivial)
      (by simp [OutboundAccounted, initRelay]) hrun
  unfold OutboundAccounted at hI
  exact ⟨s.sendHand.toList ++ s.outQ, by simp [hI]⟩

/-- Trace for the C3 witness: two items are enqueued, the first is taken
and forwarded, a third is enqueued. -/
def c3Trace : List Ev :=
  [Ev.micChunk, Ev.captureFrame, Ev.sendTake, Ev.sendOk, Ev.micChunk]

/-- Witness for C3 at a concrete five-event trace. -/
theorem relay_outbound_fifo_witness :
    run c3Trace initRelay = some ((run c3Trace initRelay).getD initRelay) ∧
    ((run c3Trace initRelay).getD initRelay).forwarded
      <+: ((run c3Trace initRelay).getD initRelay).enqOut :=
  ⟨by decide, relay_outbound_fifo c3Trace _ (by decide)⟩

/-- C4: in every reachable state the outbound queue length is at most its
configured capacity 10 (which lies in the stated 5-10 range); when the
queue is full both producer puts are disabled (the producers block); once
the consumer removes an item a producer put is enabled again; and no item
is ever dropped (the accounting invariant). -/
theorem relay_outbound_queue_bounded (es : List Ev) (s : RelayState)
    (hrun : run es initRelay = some s) :
    s.outQ.length ≤ outCapacity ∧
    (5 ≤ outCapacity ∧ outCapacity ≤ 10) ∧
    (s.outQ.length = outCapacity →
      step Ev.micChunk s = none ∧ step Ev.captureFrame s = none) ∧
    (s.outQ.length = outCapacity → s.sendStatus = TaskStatus.active →
      s.sendHand = none → s.running = true →
      s.listenStatus = TaskStatus.active →
      ((step Ev.sendTake s).bind (step Ev.micChunk)).isSome = true) ∧
    s.enqOut = s.forwarded ++ s.sendHand.toList ++ s.outQ := by
  have hB : QueueBounded s :=
    run_preserve_on (fun _ => True) QueueBounded
      (fun e t t2 _ hP hs => queueBounded_step e t t2 hP hs)
      es initRelay s (fun _ _ => trivial)
      (by simp [QueueBounded, initRelay]) hrun
  have hA : OutboundAccounted s :=
    run_preserve_on (fun _ => True) OutboundAccounted
      (fun e t t2 _ hP hs => outboundAccounted_step e t t2 hP hs)
      es initRelay s (fun _ _ => trivial)
      (by simp [OutboundAccounted, initRelay]) hrun
  refine ⟨hB, by decide, ?_, ?_, hA⟩
  · intro hfull
    constructor <;> simp [step, hfull]
  · intro hfull hsend hhand hrunning hlisten
    cases hq : s.outQ with
    | nil => rw [hq] at hfull; simp [outCapacity] at hfull
    | cons i rest =>
      rw [hq] at hfull
      simp only [List.length_cons, outCapacity] at hfull
      simp [step, hq, hsend, hhand, hrunning, hlisten, outCapacity]
      omega

/-- Trace for the C4 witness. -/
def c4Trace : List Ev := [Ev.micChunk, Ev.captureFrame]

/-- Witness for C4 at a concrete trace enqueueing two items. -/
theorem relay_outbound_queue_bounded_witness :
    run c4Trace initRelay = some ((run c4Trace initRelay).getD initRelay) ∧
    ((run c4Trace initRelay).getD initRelay).outQ.length ≤ outCapacity :=
  ⟨by decide, (relay_outbound_queue_bounded c4Trace _ (by decide)).1⟩

/-- No teardown is underway and the four tasks other than capture are
running: the session flag is set, no cancellation is being delivered, and
the listen, send, receive and playback loops are all active. -/
def NoTeardown (s : RelayState) : Prop :=
  s.running = true ∧ s.cancelRequested = false ∧
  s.listenStatus = TaskStatus.active ∧ s.sendStatus = TaskStatus.active ∧
  s.recvStatus = TaskStatus.active ∧ s.playStatus = TaskStatus.active

/-- The only events that can end a sibling task or start a teardown are
the user cancel, a microphone IOError in listen_audio and an uncaught
write error in play_audio: every other event preserves NoTeardown, since
every orderly exit requires the flag cleared or a cancellation underway. -/
theorem noTeardown_step (e : Ev) (s s2 : RelayState)
    (he : e ≠ Ev.cancel) (hl : e ≠ Ev.listenIOErr)
    (hp : e ≠ Ev.playWriteErr) (hP : NoTeardown s)
    (hstep : step e s = some s2) : NoTeardown s2 := by
  obtain ⟨h1, h2, h3, h4, h5, h6⟩ := hP
  cases e <;>
    first
      | exact absurd rfl he
      | exact absurd rfl hl
      | exact absurd rfl hp
      | (simp only [step] at hstep
         repeat' split at hstep
         all_goals first
           | exact Option.noConfusion hstep
           | (cases hstep; exact ⟨h1, h2, h3, h4, h5, h6⟩)
           | (cases hstep; simp_all))

/-- C5 counterexample: after a camera-capture failure the session is NOT
cancelled. get_frames catches the exception, prints it and breaks
(live.py 272-274), so the task returns normally and the task group keeps
the other four tasks running: three further events (a microphone chunk and
a full receive turn) still execute, the running flag is still set, and all
four sibling tasks are still active, with exactly one error logged. -/
theorem relay_capture_error_counterexample :
    (run [Ev.captureErr, Ev.micChunk, Ev.recvChunk, Ev.turnComplete]
        initRelay).isSome = true ∧
    ((run [Ev.captureErr, Ev.micChunk, Ev.recvChunk, Ev.turnComplete]
        initRelay).getD initRelay).errLog = 1 ∧
    ((run [Ev.captureErr, Ev.micChunk, Ev.recvChunk, Ev.turnComplete]
        initRelay).getD initRelay).running = true ∧
    ((run [Ev.captureErr, Ev.micChunk, Ev.recvChunk, Ev.turnComplete]
        initRelay).getD initRelay).captureStatus = TaskStatus.done ∧
    ((run [Ev.captureErr, Ev.micChunk, Ev.recvChunk, Ev.turnComplete]
        initRelay).getD initRelay).listenStatus = TaskStatus.active ∧
    ((run [Ev.captureErr, Ev.micChunk, Ev.recvChunk, Ev.turnComplete]
        initRelay).getD initRelay).sendStatus = TaskStatus.active ∧
    ((run [Ev.captureErr, Ev.micChunk, Ev.recvChunk, Ev.turnComplete]
        initRelay).getD initRelay).recvStatus = TaskStatus.active ∧
    ((run [Ev.captureErr, Ev.micChunk, Ev.recvChunk, Ev.turnComplete]
        initRelay).getD initRelay).playStatus = TaskStatus.active := by
  decide

/-- C5 amended: a camera-capture failure is logged exactly once and
terminates only the capture task (which stops the camera on its way out);
it triggers no cancellation: immediately afterwards the running flag is
still set, all four sibling tasks are still active and the receive loop is
still enabled, and along any continuation free of a user cancel and of the
independent device failures of the other tasks (a microphone IOError in
listen_audio, an uncaught write error in play_audio - the only other
mid-session teardown sources in the source), the running flag stays set
and the four sibling tasks remain active. -/
theorem relay_capture_error_task_local
    (s s1 s2 : RelayState) (es : List Ev)
    (hcap : s.captureStatus = TaskStatus.active)
    (hact : NoTeardown s)
    (herr : step Ev.captureErr s = some s1)
    (hnc : Ev.cancel ∉ es) (hnl : Ev.listenIOErr ∉ es)
    (hnp : Ev.playWriteErr ∉ es)
    (hrun : run es s1 = some s2) :
    s1.errLog = s.errLog + 1 ∧ s1.captureStatus = TaskStatus.done ∧
    s1.camStarted = false ∧ s1.running = true ∧
    s1.listenStatus = TaskStatus.active ∧
    s1.sendStatus = TaskStatus.active ∧
    s1.recvStatus = TaskStatus.active ∧
    s1.playStatus = TaskStatus.active ∧
    (step Ev.recvChunk s1).isSome = true ∧
    NoTeardown s2 := by
  have hs1 : s1 = { s with captureStatus := .done, camStarted := false,
                           errLog := s.errLog + 1 } := by
    simp only [step, hcap, if_pos] at herr
    exact (Option.some.inj herr).symm
  subst hs1
  refine ⟨rfl, rfl, rfl, hact.1, hact.2.2.1, hact.2.2.2.1,
    hact.2.2.2.2.1, hact.2.2.2.2.2, ?_, ?_⟩
  · simp [step, hact.2.2.2.2.1]
  · refine run_preserve_on
      (fun e => e ≠ Ev.cancel ∧ e ≠ Ev.listenIOErr ∧ e ≠ Ev.playWriteErr)
      NoTeardown
      (fun e t t2 hA hP hs => noTeardown_step e t t2 hA.1 hA.2.1 hA.2.2 hP hs)
      es _ s2 ?_ ?_ hrun
    · intro e he
      exact ⟨fun heq => hnc (heq ▸ he), fun heq => hnl (heq ▸ he),
             fun heq => hnp (heq ▸ he)⟩
    · exact ⟨hact.1, hact.2.1, hact.2.2.1, hact.2.2.2.1,
             hact.2.2.2.2.1, hact.2.2.2.2.2⟩

/-- The relay state right after the capture error from initRelay. -/
def c5After : RelayState :=
  { initRelay with captureStatus := .done, camStarted := false, errLog := 1 }

/-- Witness for the amended C5 at the initial relay state. -/
theorem relay_capture_error_task_local_witness :
    initRelay.captureStatus = TaskStatus.active ∧
    NoTeardown initRelay ∧
    step Ev.captureErr initRelay = some c5After ∧
    Ev.cancel ∉ [Ev.micChunk] ∧
    Ev.listenIOErr ∉ [Ev.micChunk] ∧
    Ev.playWriteErr ∉ [Ev.micChunk] ∧
    run [Ev.micChunk] c5After
      = some ((run [Ev.micChunk] c5After).getD initRelay) ∧
    (c5After.errLog = initRelay.errLog + 1 ∧
     c5After.captureStatus = TaskStatus.done ∧ c5After.camStarted = false ∧
     c5After.running = true ∧
     c5After.listenStatus = TaskStatus.active ∧
     c5After.sendStatus = TaskStatus.active ∧
     c5After.recvStatus = TaskStatus.active ∧
     c5After.playStatus = TaskStatus.active ∧
     (step Ev.recvChunk c5After).isSome = true ∧
     NoTeardown ((run [Ev.micChunk] c5After).getD initRelay)) :=
  ⟨rfl, ⟨rfl, rfl, rfl, rfl, rfl, rfl⟩, by decide, by decide, by decide,
   by decide, by decide,
   relay_capture_error_task_local initRelay c5After _ [Ev.micChunk]
     rfl ⟨rfl, rfl, rfl, rfl, rfl, rfl⟩ (by decide) (by decide) (by decide)
     (by decide) (by decide)⟩

/-- A complete cancellation run in which the capture task is cancelled at
an await point: CancelledError is not an Exception, so the post-loop
camera stop of get_frames is skipped. -/
def c6Trace : List Ev :=
  [Ev.cancel, Ev.captureCancelAwait, Ev.listenExit, Ev.sendExit,
   Ev.recvExit, Ev.playExit, Ev.groupFinally]

/-- C6 counterexample: a maximal cancellation run (no further event is
enabled in its final state) in which all five tasks have terminated and
both audio streams are closed, yet the camera is STILL started: the claim
that both devices end up closed fails on this interleaving. -/
theorem relay_cancel_camera_left_started_counterexample :
    (run c6Trace initRelay).isSome = true ∧
    ((run c6Trace initRelay).getD initRelay).captureStatus = TaskStatus.done ∧
    ((run c6Trace initRelay).getD initRelay).listenStatus = TaskStatus.done ∧
    ((run c6Trace initRelay).getD initRelay).sendStatus = TaskStatus.done ∧
    ((run c6Trace initRelay).getD initRelay).recvStatus = TaskStatus.done ∧
    ((run c6Trace initRelay).getD initRelay).playStatus = TaskStatus.done ∧
    ((run c6Trace initRelay).getD initRelay).camStarted = true ∧
    ((run c6Trace initRelay).getD initRelay).micOpen = false ∧
    ((run c6Trace initRelay).getD initRelay).outOpen = false ∧
    (allEvents.all
      (fun e => (step e ((run c6Trace initRelay).getD initRelay)).isNone))
      = true := by
  decide

/-- The teardown in which the capture task exits by observing the cleared
running flag (rather than being cancelled at an await). -/
def teardownTrace : List Ev :=
  [Ev.cancel, Ev.captureExitFlag, Ev.listenExit, Ev.sendExit, Ev.recvExit,
   Ev.playExit, Ev.groupFinally]

/-- C6 amended: cancelling the relay with all five tasks active terminates
all five within a bounded number of steps (one per task, plus the cancel
and the final cleanup: seven events) and closes both audio streams; the
camera is stopped on this path only because the capture task exits via the
session flag - the interleaving of the counterexample instead leaves it
started. -/
theorem relay_cancel_terminates_all_tasks (s : RelayState)
    (hr : s.running = true) (hcap : s.captureStatus = TaskStatus.active)
    (hl : s.listenStatus = TaskStatus.active)
    (hsd : s.sendStatus = TaskStatus.active)
    (hrv : s.recvStatus = TaskStatus.active)
    (hpl : s.playStatus = TaskStatus.active)
    (hf : s.finallyDone = false) :
    run teardownTrace s
      = some { s with running := false, cancelRequested := true,
                      captureStatus := .done, listenStatus := .done,
                      sendStatus := .done, recvStatus := .done,
                      playStatus := .done, camStarted := false,
                      micOpen := false, outOpen := false,
                      finallyDone := true } ∧
    teardownTrace.length = 7 := by
  refine ⟨?_, rfl⟩
  simp [teardownTrace, run, step, hr, hcap, hl, hsd, hrv, hpl, hf]

/-- Witness for the amended C6 at the initial relay state. -/
theorem relay_cancel_terminates_all_tasks_witness :
    initRelay.running = true ∧
    initRelay.captureStatus = TaskStatus.active ∧
    initRelay.listenStatus = TaskStatus.active ∧
    initRelay.sendStatus = TaskStatus.active ∧
    initRelay.recvStatus = TaskStatus.active ∧
    initRelay.playStatus = TaskStatus.active ∧
    initRelay.finallyDone = false ∧
    (run teardownTrace initRelay
      = some { initRelay with running := false, cancelRequested := true,
                              captureStatus := .done, listenStatus := .done,
                              sendStatus := .done, recvStatus := .done,
                              playStatus := .done, camStarted := false,
                              micOpen := false, outOpen := false,
                              finallyDone := true } ∧
     teardownTrace.length = 7) :=
  ⟨rfl, rfl, rfl, rfl, rfl, rfl, rfl,
   relay_cancel_terminates_all_tasks initRelay rfl rfl rfl rfl rfl rfl rfl⟩

/-- C8: when forwarding an outbound item raises, send_realtime logs the
failure (live.py 304-305) and continues: the failed item is consumed (not
retried, not re-queued), the sender task stays active, and the next queued
item is still taken and delivered. -/
theorem send_error_logged_and_continues
    (s s1 : RelayState) (i j : Nat) (rest : List Nat)
    (hsend : s.sendStatus = TaskStatus.active)
    (hhand : s.sendHand = some i)
    (hrunning : s.running = true)
    (hq : s.outQ = j :: rest)
    (herr : step Ev.sendErr s = some s1) :
    s1.errLog = s.errLog + 1 ∧ s1.sendStatus = TaskStatus.active ∧
    s1.sendHand = none ∧ s1.forwarded = s.forwarded ++ [i] ∧
    s1.outQ = s.outQ ∧ s1.delivered = s.delivered ∧
    ∃ s3, run [Ev.sendTake, Ev.sendOk] s1 = some s3 ∧
      s3.forwarded = s.forwarded ++ [i, j] ∧
      s3.delivered = s.delivered ++ [j] ∧
      s3.sendStatus = TaskStatus.active := by
  have hs1 : s1 = { s with sendHand := none,
                           forwarded := s.forwarded ++ [i],
                           errLog := s.errLog + 1 } := by
    simp only [step, hhand] at herr
    rw [if_pos hsend] at herr
    exact (Option.some.inj herr).symm
  subst hs1
  refine ⟨rfl, hsend, rfl, rfl, rfl, rfl, ?_⟩
  refine ⟨{ s with outQ := rest, sendHand := none,
                   forwarded := (s.forwarded ++ [i]) ++ [j],
                   delivered := s.delivered ++ [j],
                   errLog := s.errLog + 1 }, ?_, by simp, rfl, hsend⟩
  simp [run, step, hq, hsend, hrunning]

/-- A relay state in which the sender holds item 0 and item 1 waits in the
outbound queue. -/
def c8Start : RelayState :=
  { initRelay with sendHand := some 0, outQ := [1], enqOut := [0, 1],
                   nextItem := 2 }

/-- Witness for C8 at a concrete sender state. -/
theorem send_error_logged_and_continues_witness :
    c8Start.sendStatus = TaskStatus.active ∧
    c8Start.sendHand = some 0 ∧
    c8Start.running = true ∧
    c8Start.outQ = 1 :: [] ∧
    step Ev.sendErr c8Start
      = some { c8Start with sendHand := none, forwarded := [0], errLog := 1 } ∧
    (∃ s3, run [Ev.sendTake, Ev.sendOk]
        { c8Start with sendHand := none, forwarded := [0], errLog := 1 }
        = some s3 ∧
      s3.forwarded = c8Start.forwarded ++ [0, 1] ∧
      s3.delivered = c8Start.delivered ++ [1] ∧
      s3.sendStatus = TaskStatus.active) :=
  ⟨rfl, rfl, rfl, rfl, by decide,
   (send_error_logged_and_continues c8Start _ 0 1 []
     rfl rfl rfl rfl (by decide)).2.2.2.2.2.2⟩

/-- Controller-level state of PebbleLiveSession as seen by
_toggle_session: the session flag, whether a session future exists,
whether the background event loop is up, and counters of sessions started
and cancellations issued (instrumentation of observable effects). -/
structure CtrlState where
  running : Bool
  hasFuture : Bool
  loopAlive : Bool
  sessionsStarted : Nat
  cancelsIssued : Nat
deriving DecidableEq, Repr

/-- The _toggle_session method (live.py 393-411): when no session is running it
starts one (unless the event loop is absent); when a session is running
and a future exists it clears the flag and cancels the future. -/
def toggle_session (c : CtrlState) : CtrlState :=
  if c.running = false then
    if c.loopAlive = false then c
    else { c with running := true, hasFuture := true,
                  sessionsStarted := c.sessionsStarted + 1 }
  else
    if c.hasFuture then
      { c with running := false, cancelsIssued := c.cancelsIssued + 1 }
    else c

/-- The externally visible actions of one shutdown call. -/
inductive ShutAct
  | cancelFuture
  | stopLoop
  | disconnectPebble
  | terminateAudio
deriving DecidableEq, Repr

/-- The guards consulted by shutdown (live.py 456-474): a pending session
future, a running event loop, a connected Pebble. -/
structure ShutFlags where
  futurePresent : Bool
  futureDone : Bool
  loopRunning : Bool
  pebbleConnected : Bool
deriving DecidableEq, Repr

/-- The actions shutdown performs, in source order: cancel the future only
when present and not done, stop the loop only when running, disconnect the
Pebble only when connected, and always terminate PyAudio. -/
def shutdown_acts (f : ShutFlags) : List ShutAct :=
  (if f.futureDone then []
   else if f.futurePresent then [ShutAct.cancelFuture] else []) ++
  (if f.loopRunning then [ShutAct.stopLoop] else []) ++
  (if f.pebbleConnected then [ShutAct.disconnectPebble] else []) ++
  [ShutAct.terminateAudio]

/-- The guard flags after one shutdown call has taken effect: the future
(if any) has completed cancelled, the loop is stopped, the Pebble is
disconnected. -/
def shutdown_settle (f : ShutFlags) : ShutFlags :=
  { futurePresent := f.futurePresent, futureDone := true,
    loopRunning := false, pebbleConnected := false }

/-- The controller state right after one stop invocation of
_toggle_session during a running session (the done-callback has not yet
fired, so the future still exists). -/
def c7Stopped : CtrlState :=
  toggle_session { running := true, hasFuture := true, loopAlive := true,
                   sessionsStarted := 1, cancelsIssued := 0 }

/-- C7 counterexample: invoking the stop/cancel operation a second time in
immediate succession is NOT a no-op: _toggle_session is a toggle, so the
second invocation takes the start branch and launches a brand-new session
(the running flag is set again and the count of sessions started grows). -/
theorem toggle_stop_twice_counterexample :
    c7Stopped.running = false ∧
    (toggle_session c7Stopped).running = true ∧
    (toggle_session c7Stopped).sessionsStarted = 2 ∧
    toggle_session c7Stopped ≠ c7Stopped := by decide

/-- C7 amended: the stop operation is a toggle, not an idempotent stop:
from a running session one invocation stops it (flag cleared, exactly one
cancellation issued), and a second invocation in immediate succession
starts a new session instead of being a no-op. Only the shutdown routine
behaves idempotently in its guarded steps: once a shutdown has taken
effect, a repeated call issues no further cancellation, loop stop or
disconnect (only the unguarded PyAudio termination repeats). -/
theorem toggle_stop_not_idempotent (c : CtrlState) (f : ShutFlags)
    (hr : c.running = true) (hf : c.hasFuture = true)
    (hl : c.loopAlive = true) :
    (toggle_session c).running = false ∧
    (toggle_session c).cancelsIssued = c.cancelsIssued + 1 ∧
    (toggle_session c).sessionsStarted = c.sessionsStarted ∧
    (toggle_session (toggle_session c)).running = true ∧
    (toggle_session (toggle_session c)).sessionsStarted
      = c.sessionsStarted + 1 ∧
    (toggle_session (toggle_session c)).cancelsIssued
      = c.cancelsIssued + 1 ∧
    shutdown_acts (shutdown_settle f) = [ShutAct.terminateAudio] := by
  simp [toggle_session, hr, hf, hl, shutdown_acts, shutdown_settle]

/-- Witness for the amended C7 at a concrete running controller state. -/
theorem toggle_stop_not_idempotent_witness :
    ({ running := true, hasFuture := true, loopAlive := true,
       sessionsStarted := 1, cancelsIssued := 0 } : CtrlState).running
      = true ∧
    ({ running := true, hasFuture := true, loopAlive := true,
       sessionsStarted := 1, cancelsIssued := 0 } : CtrlState).hasFuture
      = true ∧
    ({ running := true, hasFuture := true, loopAlive := true,
       sessionsStarted := 1, cancelsIssued := 0 } : CtrlState).loopAlive
      = true ∧
    shutdown_acts (shutdown_settle
      { futurePresent := true, futureDone := false, loopRunning := true,
        pebbleConnected := true }) = [ShutAct.terminateAudio] :=
  ⟨rfl, rfl, rfl,
   (toggle_stop_not_idempotent
     { running := true, hasFuture := true, loopAlive := true,
       sessionsStarted := 1, cancelsIssued := 0 }
     { futurePresent := true, futureDone := false, loopRunning := true,
       pebbleConnected := true }
     rfl rfl rfl).2.2.2.2.2.2⟩

/-- IMAGE_FILE_PATH of pi_camera_analyzer.py (line 37). -/
def picamImagePath : String := "captured_image.jpg"

/-- IMAGE_FILE_PATH of pebble_voice.py (line 102). -/
def voiceImagePath : String := "captured_image.jpg"

/-- AUDIO_FILE_PATH of pebble_voice.py (line 103). -/
def voiceAudioPath : String := "captured_audio.wav"

/-- AUDIO_FILE_PATH_RAW of pebble_camera_trigger.py (line 78). -/
def rawAudioPath : String := "recorded_audio.opus"

/-- AUDIO_FILE_PATH_CONVERTED of pebble_camera_trigger.py (line 79). -/
def convertedAudioPath : String := "converted_audio.mp3"

/-- A file system modelled as the list of present paths. -/
def addFile (fs : List String) (p : String) : List String :=
  if p ∈ fs then fs else p :: fs

/-- The cleanup idiom of all three scripts: os.remove guarded by
os.path.exists. -/
def removeFileIfExists (fs : List String) (p : String) : List String :=
  if p ∈ fs then fs.filter (fun q => q != p) else fs

/-- After removal the path is absent. -/
theorem not_mem_removeFileIfExists (fs : List String) (p : String) :
    p ∉ removeFileIfExists fs p := by
  unfold removeFileIfExists
  split
  · intro hm
    have hq := (List.mem_filter.mp hm).2
    simp at hq
  · assumption

/-- Removing one path never re-introduces another. -/
theorem removeFileIfExists_preserves_absent (fs : List String)
    (p q : String) (h : p ∉ fs) : p ∉ removeFileIfExists fs q := by
  unfold removeFileIfExists
  split
  · intro hm
    exact h (List.mem_filter.mp hm).1
  · exact h

/-- Outcome of one capture-and-analyze cycle of pi_camera_analyzer. -/
inductive CycleResult
  | answered
  | noContent
  | errorLogged
deriving DecidableEq, Repr

/-- pi_camera_analyzer.main, one cycle of the capture loop (lines 66-108):
the try block captures the image to disk (on a capture failure the file
may or may not have been created, parameter captureCreates), uploads it
and queries the model (neither touches the local file system); any
Exception is caught and printed; the finally clause removes the image
file when it exists. -/
def picam_cycle (captureOk captureCreates uploadOk analyzeOk
    hasCandidates : Bool) (fs : List String) : CycleResult × List String :=
  let fs1 := if captureOk then addFile fs picamImagePath
             else if captureCreates then addFile fs picamImagePath else fs
  let res := if captureOk then
               (if uploadOk then
                 (if analyzeOk then
                   (if hasCandidates then CycleResult.answered
                    else CycleResult.noContent)
                  else CycleResult.errorLogged)
                else CycleResult.errorLogged)
             else CycleResult.errorLogged
  (res, removeFileIfExists fs1 picamImagePath)

/-- Outcome of pebble_voice._capture_and_analyze. -/
inductive VoiceResult
  | imageMissing
  | jsonFailed
  | answered
  | noAnswer
  | errorLogged
deriving DecidableEq, Repr

/-- pebble_voice.PebbleCameraTrigger._capture_and_analyze (lines 346-440):
the image and audio files already exist on disk when the call starts and
the body creates no further files; the early returns (image missing at
line 359, JSON decode failure at line 392), the caught-exception path and
the success path all fall through to the finally clause, which removes
the image file and then the audio file when they exist. -/
def capture_and_analyze (notifyOk uploadOk call1Ok jsonOk call2Ok : Bool)
    (fs : List String) : VoiceResult × List String :=
  let res :=
    if notifyOk = false then VoiceResult.errorLogged
    else if voiceImagePath ∈ fs then
      (if uploadOk then
        (if call1Ok then
          (if jsonOk then
            (if call2Ok then VoiceResult.answered else VoiceResult.noAnswer)
           else VoiceResult.jsonFailed)
         else VoiceResult.errorLogged)
       else VoiceResult.errorLogged)
    else VoiceResult.imageMissing
  (res,
   removeFileIfExists (removeFileIfExists fs voiceImagePath) voiceAudioPath)

/-- Outcome of pebble_camera_trigger._process_audio_with_gemini. -/
inductive AudioResult
  | answered
  | noContent
  | errorLogged
deriving DecidableEq, Repr

/-- pebble_camera_trigger.PebbleGeminiBridge._process_audio_with_gemini
(lines 188-209): the try block converts the recorded opus file to mp3
(export creates the converted file; on a conversion failure the file may
or may not exist, parameter convertCreates), uploads it and queries the
model; any Exception is caught, printed and reported; the finally clause
removes the raw recording and then the converted file when they exist. -/
def process_audio_with_gemini (convertOk convertCreates uploadOk
    generateOk hasCandidates : Bool) (fs : List String) :
    AudioResult × List String :=
  let fs1 := if convertOk then addFile fs convertedAudioPath
             else if convertCreates then addFile fs convertedAudioPath
             else fs
  let res := if convertOk then
               (if uploadOk then
                 (if generateOk then
                   (if hasCandidates then AudioResult.answered
                    else AudioResult.noContent)
                  else AudioResult.errorLogged)
                else AudioResult.errorLogged)
             else AudioResult.errorLogged
  (res,
   removeFileIfExists (removeFileIfExists fs1 rawAudioPath)
     convertedAudioPath)

/-- C9: for every outcome of capture, conversion, upload and analysis, in
all three single-shot variants, the temporary media files are absent from
disk after the operation returns: the finally clauses clean up on the
error paths as well as the success path. -/
theorem single_shot_temp_files_cleaned
    (a1 a2 a3 a4 a5 b1 b2 b3 b4 b5 d1 d2 d3 d4 d5 : Bool)
    (fs1 fs2 fs3 : List String) :
    picamImagePath ∉ (picam_cycle a1 a2 a3 a4 a5 fs1).2 ∧
    voiceImagePath ∉ (capture_and_analyze b1 b2 b3 b4 b5 fs2).2 ∧
    voiceAudioPath ∉ (capture_and_analyze b1 b2 b3 b4 b5 fs2).2 ∧
    rawAudioPath ∉ (process_audio_with_gemini d1 d2 d3 d4 d5 fs3).2 ∧
    convertedAudioPath ∉ (process_audio_with_gemini d1 d2 d3 d4 d5 fs3).2 := by
  refine ⟨?_, ?_, ?_, ?_, ?_⟩
  · exact not_mem_removeFileIfExists _ _
  · exact removeFileIfExists_preserves_absent _ _ _
      (not_mem_removeFileIfExists _ _)
  · exact not_mem_removeFileIfExists _ _
  · exact removeFileIfExists_preserves_absent _ _ _
      (not_mem_removeFileIfExists _ _)
  · exact not_mem_removeFileIfExists _ _

/-- Handles of the live variant that depend on the Pebble connection. -/
structure LiveConn where
  pebble : Bool
  notifications : Bool
  cameraConfigured : Bool
deriving DecidableEq, Repr

/-- Whether the Pebble connection attempt inside connect raises. -/
inductive PebbleOutcome
  | connected
  | failed
deriving DecidableEq, Repr

/-- PebbleLiveSession.connect (live.py 226-248): the camera is configured
first; the Pebble connection attempt is wrapped in try/except Exception,
and on failure both the watch handle and the notification service are set
to None and the function returns normally - the function is total, no
error propagates to the caller. -/
def live_connect (o : PebbleOutcome) : LiveConn :=
  match o with
  | .connected =>
    { pebble := true, notifications := true, cameraConfigured := true }
  | .failed =>
    { pebble := false, notifications := false, cameraConfigured := true }

/-- The session-start notification send, guarded on the service handle
(live.py 357-358). -/
def notify_session_active (c : LiveConn) :
    Option (String × String × String) :=
  if c.notifications then
    some ("Gemini Live", "Session Active", "Raspberry Pi")
  else none

/-- The session-end notification send in _session_done_callback, guarded
on the service handle (live.py 385-386). -/
def notify_session_ended (c : LiveConn) :
    Option (String × String × String) :=
  if c.notifications then
    some ("Gemini Live", "Session Ended", "Raspberry Pi")
  else none

/-- The trigger sources wired by run (live.py 424-451): the raw-packet
handler only when a Pebble is connected; the keyboard Enter path in the
main thread always. -/
def trigger_sources (c : LiveConn) : List String :=
  (if c.pebble then ["pebble-middle-button"] else []) ++ ["keyboard-enter"]

/-- The Pebble disconnect in shutdown, guarded on the handle
(live.py 465-467). -/
def shutdown_disconnects_pebble (c : LiveConn) : Bool := c.pebble

/-- C10: a failed Pebble connection during connect never propagates: both
handles are cleared while the camera stays configured, every notification
send is guarded on the handle and produces nothing, the keyboard trigger
remains available, and shutdown does not touch the absent watch. -/
theorem pebble_connect_failure_tolerated :
    live_connect PebbleOutcome.failed
      = { pebble := false, notifications := false,
          cameraConfigured := true } ∧
    notify_session_active (live_connect PebbleOutcome.failed) = none ∧
    notify_session_ended (live_connect PebbleOutcome.failed) = none ∧
    "keyboard-enter" ∈ trigger_sources (live_connect PebbleOutcome.failed) ∧
    shutdown_disconnects_pebble (live_connect PebbleOutcome.failed)
      = false := by
  refine ⟨rfl, rfl, rfl, ?_, rfl⟩
  simp [trigger_sources, live_connect]

end OpenPin
